import Mathlib

/-!
# Verification of the pw_transfer / pw_rpc core against its specification

This file gives a shallow embedding of the chunked transfer protocol
(client and server sessions) and of the RPC unary dispatch and streaming
writer handles, and proves the specified properties about them.

The transfer and RPC implementation sources are not part of the provided
sources (only their tests, public headers and callers are), so the state
machines below are modelled from the specification's description of the
client READ/WRITE state machines and the server READ/WRITE handlers
(spec §4.2, §4.4, §4.5, §8), with the tests' concrete scenarios used to
validate the model on concrete inputs.

All machine integers involved (offsets, sizes, pending byte counts) stay
far below 2^32 in every scenario considered, so they are modelled as `Nat`.
Bytes are modelled as `Nat` values.
-/

namespace Pigweed

/-- Modelled from the spec: the canonical 17 status codes (§6), plus the
UNKNOWN code used by the tests as an initial sentinel. -/
inductive TStatus where
  | aborted
  | alreadyExists
  | cancelled
  | dataLoss
  | deadlineExceeded
  | failedPrecondition
  | internal
  | invalidArgument
  | notFound
  | ok
  | outOfRange
  | permissionDenied
  | resourceExhausted
  | unauthenticated
  | unavailable
  | unimplemented
  | unknown
deriving DecidableEq, Repr

/-- Modelled from the spec: the transfer chunk wire message (§3, §6).
Optional fields are `Option`; `offset` defaults to 0 when absent, as in the
wire format. A chunk with `status` set is terminal for its sender; a chunk
with `pending_bytes` set and no data is a parameters chunk. -/
structure Chunk where
  transfer_id : Nat
  pending_bytes : Option Nat := none
  max_chunk_size_bytes : Option Nat := none
  offset : Nat := 0
  data : List Nat := []
  remaining_bytes : Option Nat := none
  status : Option TStatus := none
deriving DecidableEq, Repr

/-- A parameters chunk: `pending_bytes` set, no data, no status (§3). -/
def Chunk.isParameters (c : Chunk) : Bool :=
  c.pending_bytes.isSome && c.data.isEmpty && c.status.isNone

/-- A terminal chunk: `status` set (§3). -/
def Chunk.isTerminal (c : Chunk) : Bool :=
  c.status.isSome

/-! ## Client READ session

Modelled from the spec: "Client READ state machine" (§4.4).
States INACTIVE/WAITING/RECEIVING are collapsed into `receiving` (the
client behaves identically in WAITING and RECEIVING on every event the
spec describes); RECOVERY and COMPLETED are explicit. -/

/-- State tag of a client READ session. -/
inductive ReadState where
  | receiving | recovery | completed
deriving DecidableEq, Repr

/-- Modelled from the spec: client READ session context (§3 "Transfer
Context", §4.4). `windowEnd` is the offset at which the currently granted
window is exhausted, so the remaining window (`pending_bytes`) is
`windowEnd - offset`. `received` counts the total data bytes accepted.
`lastChunkOffset` remembers the offset of the most recently received data
chunk, used to detect a repeated chunk during RECOVERY. -/
structure ClientReadCtx where
  id : Nat
  window : Nat
  state : ReadState
  offset : Nat
  windowEnd : Nat
  lastChunkOffset : Nat
  writer : List Nat
  received : Nat
  completion : Option TStatus
deriving DecidableEq, Repr

/-- Modelled from the spec: starting a client READ transfer sends
parameters `{transfer_id, offset=0, pending_bytes=W}` and enters the
waiting/receiving state (§4.4). -/
def clientReadStart (id W : Nat) : ClientReadCtx × Chunk :=
  ({ id := id, window := W, state := .receiving, offset := 0, windowEnd := W,
     lastChunkOffset := 0, writer := [], received := 0, completion := none },
   { transfer_id := id, offset := 0, pending_bytes := some W })

/-- The parameters chunk a receiving session emits for its current
position: offset = current offset, pending_bytes = window minus the bytes
already received in that window (§4.4). -/
def readParamsChunk (s : ClientReadCtx) : Chunk :=
  { transfer_id := s.id, offset := s.offset,
    pending_bytes := some (s.windowEnd - s.offset) }

/-- Modelled from the spec: accepting a data chunk whose offset matches the
expected offset (§4.4). If the chunk's data exceeds the remaining window,
the session terminates with INTERNAL; otherwise the data is appended to
the writer, and the session completes OK on `remaining_bytes = 0`, re-sends
parameters when the window is exhausted, or stays receiving. -/
def clientReadAccept (s : ClientReadCtx) (c : Chunk) :
    ClientReadCtx × List Chunk :=
  if s.windowEnd - s.offset < c.data.length then
    ({ s with state := .completed, completion := some .internal },
     [{ transfer_id := s.id, status := some .internal }])
  else
    let s' := { s with state := ReadState.receiving,
                       offset := s.offset + c.data.length,
                       writer := s.writer ++ c.data,
                       received := s.received + c.data.length,
                       lastChunkOffset := c.offset }
    if c.remaining_bytes = some 0 then
      ({ s' with state := .completed, completion := some .ok },
       [{ transfer_id := s.id, status := some .ok }])
    else if s'.offset = s'.windowEnd then
      let s2 := { s' with windowEnd := s'.offset + s.window }
      (s2, [readParamsChunk s2])
    else
      (s', [])

/-- Modelled from the spec: client READ chunk handling (§4.4). A terminal
server chunk completes the session with its status and sends nothing. In
RECEIVING, a data chunk at the expected offset is accepted; a data chunk at
any other offset moves to RECOVERY and emits fresh parameters exactly once.
In RECOVERY, the expected offset resumes normal operation, a repeat of the
last received chunk re-emits the same parameters, and any other offset is
ignored. Chunks arriving after completion are ignored. -/
def clientReadChunk (s : ClientReadCtx) (c : Chunk) :
    ClientReadCtx × List Chunk :=
  if s.state = .completed then (s, [])
  else
    match c.status with
    | some st => ({ s with state := .completed, completion := some st }, [])
    | none =>
      match s.state with
      | .receiving =>
        if c.offset = s.offset then clientReadAccept s c
        else
          ({ s with state := .recovery, lastChunkOffset := c.offset },
           [readParamsChunk s])
      | .recovery =>
        if c.offset = s.offset then clientReadAccept s c
        else if c.offset = s.lastChunkOffset then
          ({ s with lastChunkOffset := c.offset }, [readParamsChunk s])
        else
          ({ s with lastChunkOffset := c.offset }, [])
      | .completed => (s, [])

/-- Feed a list of chunks to a client READ session in order, collecting all
emitted chunks. -/
def clientReadRun (s : ClientReadCtx) : List Chunk → ClientReadCtx × List Chunk
  | [] => (s, [])
  | c :: cs =>
    let r1 := clientReadChunk s c
    let r2 := clientReadRun r1.1 cs
    (r2.1, r1.2 ++ r2.2)

/-! ## Data chunking (sender side)

Modelled from the spec: a sender (the server on READ, the client on WRITE)
emits a sequence of data chunks capped at the negotiated chunk size per
chunk and bounded in total by the receiver's `pending_bytes`; when the
source is exhausted it emits a trailing chunk with `remaining_bytes = 0`
(§4.4). -/

/-- One burst of data chunks from source `src` starting at position `pos`,
with per-chunk cap `size` and total budget `budget`. Returns the emitted
chunks and the new source position. `fuel` bounds the recursion; every
recursive step consumes at least one byte of budget, so `budget + 1` fuel
always suffices (see `dataChunks`). -/
def dataChunksF (id : Nat) (src : List Nat) (size : Nat) :
    Nat → Nat → Nat → List Chunk × Nat
  | 0, pos, _ => ([], pos)
  | fuel + 1, pos, budget =>
    let piece := (src.drop pos).take (min size budget)
    if piece.isEmpty then
      if budget = 0 then ([], pos)
      else ([{ transfer_id := id, offset := pos, remaining_bytes := some 0 }],
            pos)
    else
      let r := dataChunksF id src size fuel
          (pos + piece.length) (budget - piece.length)
      ({ transfer_id := id, offset := pos, data := piece } :: r.1, r.2)

/-- The chunks a sender emits for a parameters grant of `budget` bytes at
position `pos`, with chunk size cap `size`. -/
def dataChunks (id : Nat) (src : List Nat) (pos size budget : Nat) :
    List Chunk × Nat :=
  dataChunksF id src size (budget + 1) pos budget

/-! ## Client WRITE session

Modelled from the spec: "Client WRITE state machine" (§4.4). -/

/-- State tag of a client WRITE session. -/
inductive WriteState where
  | sentId | sending | completed
deriving DecidableEq, Repr

/-- Modelled from the spec: client WRITE session context (§4.4). `source`
is the reader's contents, `pos` the reader position, `seekable` whether
the reader advertises seek capability. -/
structure ClientWriteCtx where
  id : Nat
  source : List Nat
  seekable : Bool
  pos : Nat
  state : WriteState
  completion : Option TStatus
deriving DecidableEq, Repr

/-- Modelled from the spec: starting a client WRITE transfer sends a chunk
holding only the transfer id (§4.4). -/
def clientWriteStart (id : Nat) (source : List Nat) (seekable : Bool) :
    ClientWriteCtx × Chunk :=
  ({ id := id, source := source, seekable := seekable, pos := 0,
     state := .sentId, completion := none },
   { transfer_id := id })

/-- Modelled from the spec: client WRITE chunk handling (§4.4). A terminal
chunk fires completion with its status. A parameters chunk with missing
`pending_bytes` ends the session with INVALID_ARGUMENT; `pending_bytes = 0`
ends it with INTERNAL; an offset differing from the reader position on a
non-seekable reader ends it with UNIMPLEMENTED; otherwise the client seeks
if needed and emits data chunks bounded by the grant. -/
def clientWriteChunk (s : ClientWriteCtx) (c : Chunk) :
    ClientWriteCtx × List Chunk :=
  if s.state = .completed then (s, [])
  else
    match c.status with
    | some st => ({ s with state := .completed, completion := some st }, [])
    | none =>
      match c.pending_bytes with
      | none =>
        ({ s with state := .completed, completion := some .invalidArgument },
         [{ transfer_id := s.id, status := some .invalidArgument }])
      | some 0 =>
        ({ s with state := .completed, completion := some .internal },
         [{ transfer_id := s.id, status := some .internal }])
      | some p =>
        if c.offset ≠ s.pos ∧ s.seekable = false then
          ({ s with state := .completed, completion := some .unimplemented },
           [{ transfer_id := s.id, status := some .unimplemented }])
        else
          let size := c.max_chunk_size_bytes.getD p
          let r := dataChunks s.id s.source c.offset size p
          ({ s with pos := r.2, state := .sending }, r.1)

/-! ## Server READ session

Modelled from the spec: "Server READ handler" (§4.4) and the handler
interface (§6). -/

/-- State tag of a server-side transfer session. -/
inductive SrvState where
  | idle | data | completed
deriving DecidableEq, Repr

/-- Modelled from the spec: a registered read handler with its reader
stream. `seekOk` is whether the reader's `Seek` succeeds; when it does not,
`Seek` returns `seekStatus`. `prepareCalls` counts `PrepareRead`
invocations; `finalizeCalls` records every `FinalizeRead` status in
order. -/
structure ReadHandlerH where
  source : List Nat
  prepareOk : Bool
  seekOk : Bool
  seekStatus : TStatus
  prepareCalls : Nat
  finalizeCalls : List TStatus
deriving DecidableEq, Repr

/-- Modelled from the spec: server READ session context (§4.4). The server
in this model has a single registered handler, keyed by `handlerId`, as in
the test fixtures; a chunk for any other transfer id has no registered
handler. -/
structure ServerReadCtx where
  handlerId : Nat
  handler : ReadHandlerH
  maxChunkSize : Nat
  state : SrvState
  offset : Nat
deriving DecidableEq, Repr

/-- An initial READ chunk: a parameters chunk at offset 0 (§4.4: the
client's opening parameters chunk). -/
def isInitialRead (c : Chunk) : Bool :=
  c.offset = 0 && c.pending_bytes.isSome && c.data.isEmpty && c.status.isNone

/-- The effective chunk size for a READ response burst: the minimum of the
server's own cap and the client's advertised `max_chunk_size_bytes`
(§4.4 tie-breaks). -/
def readChunkSize (s : ServerReadCtx) (c : Chunk) : Nat :=
  min s.maxChunkSize (c.max_chunk_size_bytes.getD s.maxChunkSize)

/-- Modelled from the spec: starting (or restarting) a server READ session
from an initial parameters chunk (§4.4): call `PrepareRead` (on failure
reply DATA_LOSS and stay idle); reject a zero window with INTERNAL and
`FinalizeRead(INTERNAL)`; otherwise seek to 0 and emit the data burst for
the granted window. -/
def serverReadStart (s : ServerReadCtx) (c : Chunk) :
    ServerReadCtx × List Chunk :=
  let h := { s.handler with prepareCalls := s.handler.prepareCalls + 1 }
  if h.prepareOk = false then
    ({ s with handler := h, state := .idle, offset := 0 },
     [{ transfer_id := s.handlerId, status := some .dataLoss }])
  else
    match c.pending_bytes with
    | none => ({ s with handler := h, state := .idle, offset := 0 }, [])
    | some 0 =>
      ({ s with
           handler := { h with finalizeCalls := h.finalizeCalls ++ [.internal] },
           state := .completed, offset := 0 },
       [{ transfer_id := s.handlerId, status := some .internal }])
    | some p =>
      let r := dataChunks s.handlerId h.source 0 (readChunkSize s c) p
      ({ s with handler := h, state := .data, offset := r.2 }, r.1)

/-- Modelled from the spec: server READ chunk handling (§4.4). An initial
chunk starts a session (NOT_FOUND if the transfer id has no registered
handler, with no handler call); a repeated initial chunk in DATA finalizes
the session with ABORTED and restarts it; a continuation parameters chunk
seeks if its offset differs from the reader position (a failing seek sends
the seek's status and finalizes with it) and emits the next burst; a client
terminal chunk finalizes with its status; a non-initial chunk after
COMPLETED is answered with FAILED_PRECONDITION; a non-initial chunk when
IDLE is ignored. -/
def serverReadChunk (s : ServerReadCtx) (c : Chunk) :
    ServerReadCtx × List Chunk :=
  if c.transfer_id ≠ s.handlerId then
    if isInitialRead c then
      (s, [{ transfer_id := c.transfer_id, status := some .notFound }])
    else (s, [])
  else
    match s.state with
    | .idle =>
      if isInitialRead c then serverReadStart s c else (s, [])
    | .data =>
      if isInitialRead c then
        serverReadStart
          { s with
              handler := { s.handler with
                finalizeCalls := s.handler.finalizeCalls ++ [.aborted] } } c
      else
        match c.status with
        | some st =>
          ({ s with
               handler := { s.handler with
                 finalizeCalls := s.handler.finalizeCalls ++ [st] },
               state := .completed }, [])
        | none =>
          match c.pending_bytes with
          | none => (s, [])
          | some p =>
            if c.offset ≠ s.offset ∧ s.handler.seekOk = false then
              ({ s with
                   handler := { s.handler with
                     finalizeCalls :=
                       s.handler.finalizeCalls ++ [s.handler.seekStatus] },
                   state := .completed },
               [{ transfer_id := s.handlerId,
                  status := some s.handler.seekStatus }])
            else
              let r := dataChunks s.handlerId s.handler.source c.offset
                  (readChunkSize s c) p
              ({ s with offset := r.2 }, r.1)
    | .completed =>
      if isInitialRead c then serverReadStart s c
      else
        (s, [{ transfer_id := s.handlerId,
               status := some .failedPrecondition }])

/-! ## Server WRITE session

Modelled from the spec: "Server WRITE handler" (§4.4) and the handler
interface (§6). -/

/-- Modelled from the spec: a registered write handler with its writer
stream. `capacity` is the writer's capacity; `written` its contents.
`finalizeRet` is the status `FinalizeWrite` returns. `prepareCalls` counts
`PrepareWrite` invocations; `finalizeCalls` records every `FinalizeWrite`
argument in order. -/
structure WriteHandlerH where
  capacity : Nat
  written : List Nat
  finalizeRet : TStatus
  prepareCalls : Nat
  finalizeCalls : List TStatus
deriving DecidableEq, Repr

/-- Modelled from the spec: server WRITE session context (§4.4). The
server in this model has a single registered handler keyed by `handlerId`,
as in the test fixtures. `windowEnd` is the offset at which the granted
window is exhausted; `recovery` and `lastChunkOffset` implement the
drop-recovery behavior; `finalStatus` is the terminal status of a
completed session, replayed on re-sent final chunks. -/
structure ServerWriteCtx where
  handlerId : Nat
  handler : WriteHandlerH
  maxBytesToReceive : Nat
  maxChunkSize : Nat
  state : SrvState
  offset : Nat
  windowEnd : Nat
  lastChunkOffset : Nat
  recovery : Bool
  finalStatus : Option TStatus
deriving DecidableEq, Repr

/-- An initial WRITE chunk: transfer id only — offset 0, no data, no
status, no pending bytes (§4.4: "initial chunk `{transfer_id}`"). -/
def isInitialWrite (c : Chunk) : Bool :=
  c.offset = 0 && c.data.isEmpty && c.status.isNone && c.pending_bytes.isNone

/-- The window the server WRITE session grants at offset `o`: the minimum
of the configured maximum bytes to receive and the writer's remaining
capacity (§4.4). -/
def serverWriteGrant (s : ServerWriteCtx) (o : Nat) : Nat :=
  min s.maxBytesToReceive (s.handler.capacity - o)

/-- The parameters chunk the server WRITE session emits for the current
window: offset = current offset, pending_bytes = window minus the bytes
already received in that window (§4.4). -/
def serverWriteParamsChunk (s : ServerWriteCtx) : Chunk :=
  { transfer_id := s.handlerId, offset := s.offset,
    pending_bytes := some (s.windowEnd - s.offset),
    max_chunk_size_bytes := some s.maxChunkSize }

/-- Modelled from the spec: starting (or restarting) a server WRITE session
from an initial chunk (§4.4): call `PrepareWrite` and reply with parameters
`{pending_bytes = window, max_chunk_size_bytes, offset = 0}`. -/
def serverWriteStart (s : ServerWriteCtx) : ServerWriteCtx × List Chunk :=
  let h := { s.handler with prepareCalls := s.handler.prepareCalls + 1 }
  let s' := { s with handler := h, state := SrvState.data, offset := 0,
                     windowEnd := min s.maxBytesToReceive h.capacity,
                     recovery := false, lastChunkOffset := 0,
                     finalStatus := none }
  (s', [serverWriteParamsChunk s'])

/-- Modelled from the spec: completing a server WRITE session with the
client's terminal status (§4.4). For OK, `FinalizeWrite(OK)` is called and
the reply is `{status = OK}`, or `{status = DATA_LOSS}` if the finalize
returns non-OK; for a non-OK status, `FinalizeWrite(status)` is called and
nothing is sent. -/
def serverWriteFinish (s : ServerWriteCtx) (st : TStatus) :
    ServerWriteCtx × List Chunk :=
  let h := { s.handler with finalizeCalls := s.handler.finalizeCalls ++ [st] }
  if st = .ok then
    let reply : TStatus := if h.finalizeRet = .ok then .ok else .dataLoss
    ({ s with handler := h, state := .completed, finalStatus := some reply },
     [{ transfer_id := s.handlerId, status := some reply }])
  else
    ({ s with handler := h, state := .completed, finalStatus := some st }, [])

/-- Writing `d` into stream contents `w` at position `o`: bytes before `o`
and bytes after the written region are preserved (the writer is seekable
and `PrepareWrite` rewinds it, so a restarted session overwrites). -/
def overwriteAt (w : List Nat) (o : Nat) (d : List Nat) : List Nat :=
  w.take o ++ d ++ w.drop (o + d.length)

/-- Modelled from the spec: accepting a WRITE data chunk at the expected
offset (§4.4). Data beyond the granted window terminates the session with
INTERNAL (flow control violated, §7) and `FinalizeWrite(INTERNAL)`;
otherwise the data is written and the chunk's terminal markers
(`remaining_bytes = 0` or a `status`) complete the session; when the
window is exhausted the next parameters chunk is sent. -/
def serverWriteAccept (s : ServerWriteCtx) (c : Chunk) :
    ServerWriteCtx × List Chunk :=
  if s.windowEnd - s.offset < c.data.length then
    ({ s with
         handler := { s.handler with
           finalizeCalls := s.handler.finalizeCalls ++ [.internal] },
         state := .completed, finalStatus := some .internal },
     [{ transfer_id := s.handlerId, status := some .internal }])
  else
    let s' := { s with handler := { s.handler with
                          written := overwriteAt s.handler.written s.offset c.data },
                       offset := s.offset + c.data.length,
                       recovery := false, lastChunkOffset := c.offset }
    match c.status with
    | some st => serverWriteFinish s' st
    | none =>
      if c.remaining_bytes = some 0 then serverWriteFinish s' .ok
      else if s'.offset = s'.windowEnd then
        let s2 := { s' with
          windowEnd := s'.offset + serverWriteGrant s' s'.offset }
        (s2, [serverWriteParamsChunk s2])
      else (s', [])

/-- Modelled from the spec: server WRITE chunk handling (§4.4). An initial
chunk starts a session (NOT_FOUND when the transfer id has no registered
handler, touching no handler); a repeated initial chunk in DATA finalizes
with ABORTED and restarts; a pure terminal chunk finalizes with its
status; a data chunk at the expected offset is accepted; a data chunk at
an unexpected offset triggers the parameters-based recovery exactly as on
the client side; after COMPLETED a re-sent final chunk is answered with
the same terminal status and any other chunk with FAILED_PRECONDITION,
with no state change; a non-initial chunk when IDLE is ignored. -/
def serverWriteChunk (s : ServerWriteCtx) (c : Chunk) :
    ServerWriteCtx × List Chunk :=
  if c.transfer_id ≠ s.handlerId then
    if isInitialWrite c then
      (s, [{ transfer_id := c.transfer_id, status := some .notFound }])
    else (s, [])
  else
    match s.state with
    | .idle =>
      if isInitialWrite c then serverWriteStart s else (s, [])
    | .data =>
      if isInitialWrite c then
        serverWriteStart
          { s with handler := { s.handler with
              finalizeCalls := s.handler.finalizeCalls ++ [.aborted] } }
      else if c.data.isEmpty && c.status.isSome then
        serverWriteFinish s (c.status.getD .unknown)
      else if c.offset = s.offset then
        serverWriteAccept s c
      else if s.recovery then
        if c.offset = s.lastChunkOffset then
          ({ s with lastChunkOffset := c.offset }, [serverWriteParamsChunk s])
        else ({ s with lastChunkOffset := c.offset }, [])
      else
        ({ s with recovery := true, lastChunkOffset := c.offset },
         [serverWriteParamsChunk s])
    | .completed =>
      if c.remaining_bytes = some 0 || c.status.isSome then
        (s, [{ transfer_id := s.handlerId,
               status := some (s.finalStatus.getD .unknown) }])
      else
        (s, [{ transfer_id := s.handlerId,
               status := some .failedPrecondition }])

/-! ## Runs and the handler-log abstraction

The wire behavior of a server session is determined by everything except
the handler call log (`prepareCalls`, `finalizeCalls`) and, on the write
side, the bytes already written (which are never read back). `setLogs` /
`setLogsW` replace exactly those fields; the congruence lemmas below show
chunk processing commutes with them, which makes "identical wire behavior"
of two sessions provable from their states agreeing up to logs. -/

/-- Feed a list of chunks to a server READ session in order, collecting
all emitted chunks. -/
def serverReadRun (s : ServerReadCtx) : List Chunk → ServerReadCtx × List Chunk
  | [] => (s, [])
  | c :: cs =>
    let r1 := serverReadChunk s c
    let r2 := serverReadRun r1.1 cs
    (r2.1, r1.2 ++ r2.2)

/-- Feed a list of chunks to a server WRITE session in order, collecting
all emitted chunks. -/
def serverWriteRun (s : ServerWriteCtx) : List Chunk → ServerWriteCtx × List Chunk
  | [] => (s, [])
  | c :: cs =>
    let r1 := serverWriteChunk s c
    let r2 := serverWriteRun r1.1 cs
    (r2.1, r1.2 ++ r2.2)

/-- Replace the handler call log of a READ session. -/
def setLogs (s : ServerReadCtx) (pc : Nat) (fc : List TStatus) : ServerReadCtx :=
  { s with handler := { s.handler with prepareCalls := pc, finalizeCalls := fc } }

/-- Replace the handler call log and written bytes of a WRITE session. -/
def setLogsW (s : ServerWriteCtx) (pc : Nat) (fc : List TStatus)
    (w : List Nat) : ServerWriteCtx :=
  { s with handler :=
      { s.handler with
          prepareCalls := pc, finalizeCalls := fc, written := w } }

/-- The READ session context of a service on which no transfer is in
progress, with the handler call log cleared: the state a restarted
session's wire behavior is compared against. -/
def resetReadSession (s : ServerReadCtx) : ServerReadCtx :=
  setLogs { s with state := .idle, offset := 0 } 0 []

/-- The WRITE session context of a service on which no transfer is in
progress, with the handler call log and written bytes cleared. -/
def resetWriteSession (s : ServerWriteCtx) : ServerWriteCtx :=
  setLogsW
    { s with
        state := .idle, offset := 0, windowEnd := 0, lastChunkOffset := 0,
        recovery := false, finalStatus := none }
    0 [] []

/-! ## Lossless READ interaction

Modelled from the spec: a complete READ transfer over a lossless, in-order
channel (§2 data flow, §4.4): the client's parameters chunk is delivered
to the server session, the server's burst is delivered to the client
session, and so on, until the client emits its terminal chunk, which is
delivered to the server. -/

/-- Run a READ transfer to completion: deliver parameters chunk `p` to the
server, its response burst to the client, and iterate on the client's
reply. Stops when the client goes silent or sends its terminal chunk.
`fuel` bounds the number of rounds. -/
def readTransferLoop : Nat → ServerReadCtx → ClientReadCtx → Chunk →
    ClientReadCtx × ServerReadCtx
  | 0, srv, cli, _ => (cli, srv)
  | fuel + 1, srv, cli, p =>
    let r1 := serverReadChunk srv p
    let r2 := clientReadRun cli r1.2
    match r2.2 with
    | [] => (r2.1, r1.1)
    | out :: _ =>
      if out.isTerminal then (r2.1, (serverReadChunk r1.1 out).1)
      else readTransferLoop fuel r1.1 r2.1 out

/-- A fresh server READ session for handler id `id` over source `src`,
with server-side chunk cap `mcs`. -/
def mkServerRead (id : Nat) (src : List Nat) (mcs : Nat) : ServerReadCtx :=
  { handlerId := id,
    handler := { source := src, prepareOk := true, seekOk := true,
                 seekStatus := .ok, prepareCalls := 0, finalizeCalls := [] },
    maxChunkSize := mcs, state := .idle, offset := 0 }

/-- Run an entire READ transfer for transfer id `id` of source `src`, with
client window `W` and server chunk cap `mcs`, over a lossless channel. -/
def readTransfer (id : Nat) (src : List Nat) (W mcs : Nat) :
    ClientReadCtx × ServerReadCtx :=
  let r := clientReadStart id W
  readTransferLoop (src.length + 2) (mkServerRead id src mcs) r.1 r.2

/-! ## RPC packets, unary dispatch, streaming writer handles

Modelled from the spec: §3 "Packet", §4.2 "Method Dispatch",
§4.5 "Server Streaming Writers / Readers". -/

/-- Modelled from the spec: RPC packet types (§6). -/
inductive PacketKind where
  | request | response | clientStream | serverStream | clientError
  | serverError | clientStreamEnd
deriving DecidableEq, Repr

/-- Modelled from the spec: the in-memory RPC packet (§3). -/
structure RpcPacket where
  kind : PacketKind
  channelId : Nat
  serviceId : Nat
  methodId : Nat
  payload : List Nat
  pstatus : TStatus
deriving DecidableEq, Repr

/-- Result of a unary method invocation: the request payload the user
handler observed (decoded before any sending), and the packets emitted on
the channel. -/
structure UnaryResult where
  observed : List Nat
  sent : List RpcPacket
deriving DecidableEq, Repr

/-- Modelled from the spec: unary method dispatch (§4.2). The request is
decoded and passed to the user handler, which produces a response payload
and status; the response plus `framing` bytes of packet overhead must fit
in the channel's output buffer of `bufferSize` bytes, else a SERVER_ERROR
packet with status INTERNAL (and the request's ids) is emitted instead of
a RESPONSE. -/
def invokeUnary (bufferSize framing : Nat)
    (handler : List Nat → List Nat × TStatus) (req : RpcPacket) :
    UnaryResult :=
  let (respPayload, st) := handler req.payload
  if bufferSize < respPayload.length + framing then
    { observed := req.payload,
      sent := [{ kind := .serverError, channelId := req.channelId,
                 serviceId := req.serviceId, methodId := req.methodId,
                 payload := [], pstatus := .internal }] }
  else
    { observed := req.payload,
      sent := [{ kind := .response, channelId := req.channelId,
                 serviceId := req.serviceId, methodId := req.methodId,
                 payload := respPayload, pstatus := st }] }

/-- Modelled from the spec: a server streaming writer handle backed by a
Call (§4.5, §3 "Call"). `active` is the call's active flag. -/
structure ServerWriterH where
  active : Bool
  channelId : Nat
  serviceId : Nat
  methodId : Nat
deriving DecidableEq, Repr

/-- Modelled from the spec: `Write(payload)` on a streaming handle emits a
SERVER_STREAM packet and returns OK; on a finished or moved-from handle it
returns FAILED_PRECONDITION without emitting a packet (§4.2, §4.5). -/
def ServerWriterH.write (w : ServerWriterH) (payload : List Nat) :
    ServerWriterH × List RpcPacket × TStatus :=
  if w.active then
    (w, [{ kind := .serverStream, channelId := w.channelId,
           serviceId := w.serviceId, methodId := w.methodId,
           payload := payload, pstatus := .ok }], .ok)
  else (w, [], .failedPrecondition)

/-- Modelled from the spec: `Finish(status)` emits a RESPONSE terminating
the stream and deactivates the call; on an already inactive handle it
returns FAILED_PRECONDITION without emitting a packet (§4.2, §4.5). -/
def ServerWriterH.finish (w : ServerWriterH) (st : TStatus) :
    ServerWriterH × List RpcPacket × TStatus :=
  if w.active then
    ({ w with active := false },
     [{ kind := .response, channelId := w.channelId,
        serviceId := w.serviceId, methodId := w.methodId,
        payload := [], pstatus := st }], .ok)
  else (w, [], .failedPrecondition)

/-- Modelled from the spec: moving a streaming handle transfers the call to
the destination and clears the source's active flag without sending any
packet (§3 "Call", §4.2). Returns (moved-from source, destination). -/
def ServerWriterH.move (w : ServerWriterH) : ServerWriterH × ServerWriterH :=
  ({ w with active := false }, w)

/-- A concrete mid-transfer server READ session, used as a fixture. -/
def sampleReadCtx : ServerReadCtx :=
  { handlerId := 3,
    handler := { source := [1, 2, 3, 4], prepareOk := true, seekOk := true,
                 seekStatus := .ok, prepareCalls := 1, finalizeCalls := [] },
    maxChunkSize := 8, state := .data, offset := 2 }

/-- The initial chunk of `sampleReadCtx`'s transfer. -/
def sampleReadInitial : Chunk :=
  { transfer_id := 3, pending_bytes := some 4, offset := 0 }

/-- A concrete mid-transfer server WRITE session, used as a fixture. -/
def sampleWriteCtx : ServerWriteCtx :=
  { handlerId := 7,
    handler := { capacity := 8, written := [9, 9], finalizeRet := .ok,
                 prepareCalls := 1, finalizeCalls := [] },
    maxBytesToReceive := 16, maxChunkSize := 5, state := .data,
    offset := 2, windowEnd := 8, lastChunkOffset := 0, recovery := false,
    finalStatus := none }

/-- The initial chunk of `sampleWriteCtx`'s transfer. -/
def sampleWriteInitial : Chunk :=
  { transfer_id := 7 }

/-- A concrete server WRITE session mid-window with one byte received,
used as a fixture for the drop-recovery scenario. -/
def sampleRecoveryWriteCtx : ServerWriteCtx :=
  { handlerId := 7,
    handler := { capacity := 32, written := [1], finalizeRet := .ok,
                 prepareCalls := 1, finalizeCalls := [] },
    maxBytesToReceive := 32, maxChunkSize := 37, state := .data,
    offset := 1, windowEnd := 32, lastChunkOffset := 0, recovery := false,
    finalStatus := none }

/-! ## Theorems -/

/-- C2: while a receiving transfer session is in the data-receiving
state, a data chunk with a non-matching offset makes it emit exactly one
parameters chunk with offset = the expected offset and pending_bytes =
window minus the bytes already received in that window, and moves it to
RECOVERY; there, a further data chunk with a non-matching, non-repeated
offset emits nothing, while a repetition of the last received chunk
re-emits exactly the same parameters chunk. This holds for both
receivers: the client READ session and the server WRITE session. -/
theorem recovery_emits_parameters_once
    (s : ClientReadCtx) (c d e : Chunk)
    (u : ServerWriteCtx) (f g k : Chunk)
    (hs : s.state = .receiving)
    (hc : c.status = none) (hco : c.offset ≠ s.offset)
    (hd : d.status = none) (hdo : d.offset ≠ s.offset) (hdc : d.offset ≠ c.offset)
    (he : e.status = none) (heo : e.offset ≠ s.offset) (hec : e.offset = c.offset)
    (hu : u.state = .data) (hur : u.recovery = false)
    (hfid : f.transfer_id = u.handlerId) (hfd : f.data ≠ [])
    (hfo : f.offset ≠ u.offset)
    (hgid : g.transfer_id = u.handlerId) (hgd : g.data ≠ [])
    (hgo : g.offset ≠ u.offset) (hgf : g.offset ≠ f.offset)
    (hkid : k.transfer_id = u.handlerId) (hkd : k.data ≠ [])
    (hko : k.offset ≠ u.offset) (hkf : k.offset = f.offset) :
    clientReadChunk s c =
      ({ s with state := .recovery, lastChunkOffset := c.offset },
       [{ transfer_id := s.id, offset := s.offset,
          pending_bytes := some (s.windowEnd - s.offset) }]) ∧
    (clientReadChunk { s with state := .recovery, lastChunkOffset := c.offset } d).2
      = [] ∧
    (clientReadChunk { s with state := .recovery, lastChunkOffset := c.offset } e).2
      = [{ transfer_id := s.id, offset := s.offset,
           pending_bytes := some (s.windowEnd - s.offset) }] ∧
    serverWriteChunk u f =
      ({ u with recovery := true, lastChunkOffset := f.offset },
       [{ transfer_id := u.handlerId, offset := u.offset,
          pending_bytes := some (u.windowEnd - u.offset),
          max_chunk_size_bytes := some u.maxChunkSize }]) ∧
    (serverWriteChunk { u with recovery := true, lastChunkOffset := f.offset } g).2
      = [] ∧
    (serverWriteChunk { u with recovery := true, lastChunkOffset := f.offset } k).2
      = [{ transfer_id := u.handlerId, offset := u.offset,
           pending_bytes := some (u.windowEnd - u.offset),
           max_chunk_size_bytes := some u.maxChunkSize }] := by
  have hfe : f.data.isEmpty = false := by
    cases hx : f.data with
    | nil => exact absurd hx hfd
    | cons a l => rfl
  have hge : g.data.isEmpty = false := by
    cases hx : g.data with
    | nil => exact absurd hx hgd
    | cons a l => rfl
  have hke : k.data.isEmpty = false := by
    cases hx : k.data with
    | nil => exact absurd hx hkd
    | cons a l => rfl
  have hfi : isInitialWrite f = false := by simp [isInitialWrite, hfe]
  have hgi : isInitialWrite g = false := by simp [isInitialWrite, hge]
  have hki : isInitialWrite k = false := by simp [isInitialWrite, hke]
  refine ⟨?_, ?_, ?_, ?_, ?_, ?_⟩ <;>
    simp [clientReadChunk, readParamsChunk, serverWriteChunk,
          serverWriteParamsChunk, hs, hc, hd, he, hco, hdo, hdc, heo, hec,
          hu, hur, hfid, hfo, hgid, hgo, hgf, hkid, hko, hkf, hfi, hgi, hki,
          hfe, hge, hke]

/-- Witness for `recovery_emits_parameters_once` at a concrete receiving
client READ session, a concrete mid-window server WRITE session, and
concrete dropped, ignored and repeated chunks. -/
theorem recovery_emits_parameters_once_witness :
    (({ id := 1, window := 8, state := .receiving, offset := 4, windowEnd := 8,
        lastChunkOffset := 0, writer := [1, 2, 3, 4], received := 4,
        completion := none } : ClientReadCtx).state = ReadState.receiving) ∧
    (clientReadChunk
        { id := 1, window := 8, state := .receiving, offset := 4,
          windowEnd := 8, lastChunkOffset := 0, writer := [1, 2, 3, 4],
          received := 4, completion := none }
        { transfer_id := 1, offset := 6, data := [9, 9] } =
      ({ id := 1, window := 8, state := .recovery, offset := 4, windowEnd := 8,
         lastChunkOffset := 6, writer := [1, 2, 3, 4], received := 4,
         completion := none },
       [{ transfer_id := 1, offset := 4, pending_bytes := some 4 }]) ∧
     (clientReadChunk
         { id := 1, window := 8, state := .recovery, offset := 4,
           windowEnd := 8, lastChunkOffset := 6, writer := [1, 2, 3, 4],
           received := 4, completion := none }
         { transfer_id := 1, offset := 7, data := [9] }).2 = [] ∧
     (clientReadChunk
         { id := 1, window := 8, state := .recovery, offset := 4,
           windowEnd := 8, lastChunkOffset := 6, writer := [1, 2, 3, 4],
           received := 4, completion := none }
         { transfer_id := 1, offset := 6, data := [9, 9] }).2 =
       [{ transfer_id := 1, offset := 4, pending_bytes := some 4 }] ∧
     serverWriteChunk sampleRecoveryWriteCtx
         { transfer_id := 7, offset := 2, data := [9] } =
       ({ sampleRecoveryWriteCtx with recovery := true, lastChunkOffset := 2 },
        [{ transfer_id := 7, offset := 1, pending_bytes := some 31,
           max_chunk_size_bytes := some 37 }]) ∧
     (serverWriteChunk
         { sampleRecoveryWriteCtx with recovery := true, lastChunkOffset := 2 }
         { transfer_id := 7, offset := 3, data := [9] }).2 = [] ∧
     (serverWriteChunk
         { sampleRecoveryWriteCtx with recovery := true, lastChunkOffset := 2 }
         { transfer_id := 7, offset := 2, data := [9] }).2 =
       [{ transfer_id := 7, offset := 1, pending_bytes := some 31,
          max_chunk_size_bytes := some 37 }]) :=
  ⟨rfl,
   recovery_emits_parameters_once
     { id := 1, window := 8, state := .receiving, offset := 4, windowEnd := 8,
       lastChunkOffset := 0, writer := [1, 2, 3, 4], received := 4,
       completion := none }
     { transfer_id := 1, offset := 6, data := [9, 9] }
     { transfer_id := 1, offset := 7, data := [9] }
     { transfer_id := 1, offset := 6, data := [9, 9] }
     sampleRecoveryWriteCtx
     { transfer_id := 7, offset := 2, data := [9] }
     { transfer_id := 7, offset := 3, data := [9] }
     { transfer_id := 7, offset := 2, data := [9] }
     rfl rfl (by decide) rfl (by decide) (by decide) rfl (by decide) rfl
     rfl rfl rfl (by decide) (by decide) rfl (by decide) (by decide)
     (by decide) rfl (by decide) (by decide) rfl⟩

/-- C4: re-sending a final chunk to a completed server WRITE session
yields exactly the original terminal status chunk again and changes
nothing: the state (hence the handler's finalize log) is untouched and the
session stays COMPLETED. -/
theorem write_completed_terminal_resend_idempotent
    (s : ServerWriteCtx) (c : Chunk) (st : TStatus)
    (hst : s.state = .completed) (hfs : s.finalStatus = some st)
    (hid : c.transfer_id = s.handlerId)
    (hfinal : c.remaining_bytes = some 0 ∨ c.status.isSome) :
    serverWriteChunk s c =
      (s, [{ transfer_id := s.handlerId, status := some st }]) := by
  have : (c.remaining_bytes = some 0 || c.status.isSome) = true := by
    rcases hfinal with h | h <;> simp [h]
  simp [serverWriteChunk, hst, hid, this, hfs]

/-- Witness for `write_completed_terminal_resend_idempotent` at a concrete
completed WRITE session. -/
theorem write_completed_terminal_resend_idempotent_witness :
    (({ handlerId := 7,
        handler := { capacity := 4, written := [5, 6, 7, 8], finalizeRet := .ok,
                     prepareCalls := 1, finalizeCalls := [.ok] },
        maxBytesToReceive := 8, maxChunkSize := 16, state := .completed,
        offset := 4, windowEnd := 4, lastChunkOffset := 0, recovery := false,
        finalStatus := some .ok } : ServerWriteCtx).state = SrvState.completed) ∧
    serverWriteChunk
        { handlerId := 7,
          handler := { capacity := 4, written := [5, 6, 7, 8], finalizeRet := .ok,
                       prepareCalls := 1, finalizeCalls := [.ok] },
          maxBytesToReceive := 8, maxChunkSize := 16, state := .completed,
          offset := 4, windowEnd := 4, lastChunkOffset := 0, recovery := false,
          finalStatus := some .ok }
        { transfer_id := 7, offset := 0, data := [5, 6, 7, 8],
          remaining_bytes := some 0 } =
      ({ handlerId := 7,
         handler := { capacity := 4, written := [5, 6, 7, 8], finalizeRet := .ok,
                      prepareCalls := 1, finalizeCalls := [.ok] },
         maxBytesToReceive := 8, maxChunkSize := 16, state := .completed,
         offset := 4, windowEnd := 4, lastChunkOffset := 0, recovery := false,
         finalStatus := some .ok },
       [{ transfer_id := 7, status := some .ok }]) :=
  ⟨rfl,
   write_completed_terminal_resend_idempotent
     { handlerId := 7,
       handler := { capacity := 4, written := [5, 6, 7, 8], finalizeRet := .ok,
                    prepareCalls := 1, finalizeCalls := [.ok] },
       maxBytesToReceive := 8, maxChunkSize := 16, state := .completed,
       offset := 4, windowEnd := 4, lastChunkOffset := 0, recovery := false,
       finalStatus := some .ok }
     { transfer_id := 7, offset := 0, data := [5, 6, 7, 8],
       remaining_bytes := some 0 }
     .ok rfl rfl rfl (Or.inl rfl)⟩

/-- C5: a receiver accepts at most the granted `pending_bytes` per window;
delivering more data in a window terminates the session with a terminal
INTERNAL chunk and INTERNAL is reported to the completion callback
(client READ side) and passed to `FinalizeWrite` (server WRITE side). -/
theorem window_overflow_terminates_internal
    (s : ClientReadCtx) (c : Chunk) (t : ServerWriteCtx) (d : Chunk)
    (hs : s.state = .receiving) (hc : c.status = none) (hco : c.offset = s.offset)
    (hover : s.windowEnd - s.offset < c.data.length)
    (ht : t.state = .data) (hd : d.status = none) (hid : d.transfer_id = t.handlerId)
    (hdo : d.offset = t.offset)
    (hdover : t.windowEnd - t.offset < d.data.length) :
    (clientReadChunk s c).2 = [{ transfer_id := s.id, status := some .internal }] ∧
    (clientReadChunk s c).1.completion = some .internal ∧
    (clientReadChunk s c).1.state = .completed ∧
    (serverWriteChunk t d).2 = [{ transfer_id := t.handlerId, status := some .internal }] ∧
    (serverWriteChunk t d).1.handler.finalizeCalls
      = t.handler.finalizeCalls ++ [.internal] ∧
    (serverWriteChunk t d).1.state = .completed := by
  have hne : d.data ≠ [] := by
    intro h
    rw [h] at hdover
    simp at hdover
  have hinit : isInitialWrite d = false := by
    simp [isInitialWrite, hne]
  refine ⟨?_, ?_, ?_, ?_, ?_, ?_⟩ <;>
    simp [clientReadChunk, clientReadAccept, serverWriteChunk,
          serverWriteAccept, hs, hc, hco, hover, ht, hd, hid, hdo, hdover,
          hinit, hne]

/-- Witness for `window_overflow_terminates_internal`: a 4-byte window with
5 bytes delivered, on both the client READ and the server WRITE side. -/
theorem window_overflow_terminates_internal_witness :
    (({ id := 2, window := 4, state := .receiving, offset := 4, windowEnd := 8,
        lastChunkOffset := 0, writer := [1, 2, 3, 4], received := 4,
        completion := none } : ClientReadCtx).windowEnd - 4 < 5) ∧
    ((clientReadChunk
        { id := 2, window := 4, state := .receiving, offset := 4, windowEnd := 8,
          lastChunkOffset := 0, writer := [1, 2, 3, 4], received := 4,
          completion := none }
        { transfer_id := 2, offset := 4, data := [9, 9, 9, 9, 9] }).2 =
      [{ transfer_id := 2, status := some .internal }] ∧
     (clientReadChunk
        { id := 2, window := 4, state := .receiving, offset := 4, windowEnd := 8,
          lastChunkOffset := 0, writer := [1, 2, 3, 4], received := 4,
          completion := none }
        { transfer_id := 2, offset := 4, data := [9, 9, 9, 9, 9] }).1.completion
       = some .internal ∧
     (clientReadChunk
        { id := 2, window := 4, state := .receiving, offset := 4, windowEnd := 8,
          lastChunkOffset := 0, writer := [1, 2, 3, 4], received := 4,
          completion := none }
        { transfer_id := 2, offset := 4, data := [9, 9, 9, 9, 9] }).1.state
       = .completed ∧
     (serverWriteChunk
        { handlerId := 7,
          handler := { capacity := 8, written := [1, 2, 3, 4], finalizeRet := .ok,
                       prepareCalls := 1, finalizeCalls := [] },
          maxBytesToReceive := 8, maxChunkSize := 16, state := .data,
          offset := 4, windowEnd := 8, lastChunkOffset := 0, recovery := false,
          finalStatus := none }
        { transfer_id := 7, offset := 4, data := [9, 9, 9, 9, 9] }).2 =
       [{ transfer_id := 7, status := some .internal }] ∧
     (serverWriteChunk
        { handlerId := 7,
          handler := { capacity := 8, written := [1, 2, 3, 4], finalizeRet := .ok,
                       prepareCalls := 1, finalizeCalls := [] },
          maxBytesToReceive := 8, maxChunkSize := 16, state := .data,
          offset := 4, windowEnd := 8, lastChunkOffset := 0, recovery := false,
          finalStatus := none }
        { transfer_id := 7, offset := 4, data := [9, 9, 9, 9, 9] }).1.handler.finalizeCalls
       = [] ++ [.internal] ∧
     (serverWriteChunk
        { handlerId := 7,
          handler := { capacity := 8, written := [1, 2, 3, 4], finalizeRet := .ok,
                       prepareCalls := 1, finalizeCalls := [] },
          maxBytesToReceive := 8, maxChunkSize := 16, state := .data,
          offset := 4, windowEnd := 8, lastChunkOffset := 0, recovery := false,
          finalStatus := none }
        { transfer_id := 7, offset := 4, data := [9, 9, 9, 9, 9] }).1.state
       = .completed) :=
  ⟨by decide,
   window_overflow_terminates_internal
     { id := 2, window := 4, state := .receiving, offset := 4, windowEnd := 8,
       lastChunkOffset := 0, writer := [1, 2, 3, 4], received := 4,
       completion := none }
     { transfer_id := 2, offset := 4, data := [9, 9, 9, 9, 9] }
     { handlerId := 7,
       handler := { capacity := 8, written := [1, 2, 3, 4], finalizeRet := .ok,
                    prepareCalls := 1, finalizeCalls := [] },
       maxBytesToReceive := 8, maxChunkSize := 16, state := .data,
       offset := 4, windowEnd := 8, lastChunkOffset := 0, recovery := false,
       finalStatus := none }
     { transfer_id := 7, offset := 4, data := [9, 9, 9, 9, 9] }
     rfl rfl rfl (by decide) rfl rfl rfl rfl (by decide)⟩

/-- C6: a request that would require repositioning a non-seekable stream
ends the session with UNIMPLEMENTED. Client WRITE side: a parameters chunk
whose offset differs from the reader position on a non-seekable reader
makes the client send a terminal UNIMPLEMENTED chunk and complete with
UNIMPLEMENTED. Server READ side: a parameters chunk whose offset differs
from the reader position when the reader's seek fails makes the server
send the seek's error status and pass it to `FinalizeRead`. -/
theorem seek_unsupported_ends_session
    (s : ClientWriteCtx) (c : Chunk) (t : ServerReadCtx) (d : Chunk) (p q : Nat)
    (hs : s.state ≠ .completed) (hc : c.status = none)
    (hp : c.pending_bytes = some p) (hp0 : p ≠ 0)
    (hoff : c.offset ≠ s.pos) (hseek : s.seekable = false)
    (ht : t.state = .data) (hd : d.status = none)
    (hid : d.transfer_id = t.handlerId) (hinit : isInitialRead d = false)
    (hq : d.pending_bytes = some q) (hdoff : d.offset ≠ t.offset)
    (htseek : t.handler.seekOk = false) :
    clientWriteChunk s c =
      ({ s with state := .completed, completion := some .unimplemented },
       [{ transfer_id := s.id, status := some .unimplemented }]) ∧
    (serverReadChunk t d).2 =
      [{ transfer_id := t.handlerId, status := some t.handler.seekStatus }] ∧
    (serverReadChunk t d).1.handler.finalizeCalls
      = t.handler.finalizeCalls ++ [t.handler.seekStatus] ∧
    (serverReadChunk t d).1.state = .completed := by
  constructor
  · match hpm : p, hp with
    | Nat.succ n, hp => simp [clientWriteChunk, hs, hc, hp, hoff, hseek]
  · refine ⟨?_, ?_, ?_⟩ <;>
      simp [serverReadChunk, ht, hd, hid, hinit, hq, hdoff, htseek]

/-- Witness for `seek_unsupported_ends_session`: a non-seekable client
WRITE reader asked for offset 16, and a server READ session whose reader
fails to seek with UNIMPLEMENTED. -/
theorem seek_unsupported_ends_session_witness :
    (({ id := 6, source := [1, 2, 3, 4], seekable := false, pos := 0,
        state := .sentId, completion := none } : ClientWriteCtx).seekable
      = false) ∧
    (clientWriteChunk
        { id := 6, source := [1, 2, 3, 4], seekable := false, pos := 0,
          state := .sentId, completion := none }
        { transfer_id := 6, pending_bytes := some 64,
          max_chunk_size_bytes := some 32, offset := 16 } =
      ({ id := 6, source := [1, 2, 3, 4], seekable := false, pos := 0,
         state := .completed, completion := some .unimplemented },
       [{ transfer_id := 6, status := some .unimplemented }]) ∧
     (serverReadChunk
        { handlerId := 3,
          handler := { source := [1, 2, 3, 4], prepareOk := true,
                       seekOk := false, seekStatus := .unimplemented,
                       prepareCalls := 1, finalizeCalls := [] },
          maxChunkSize := 64, state := .data, offset := 16 }
        { transfer_id := 3, pending_bytes := some 8, offset := 2 }).2 =
       [{ transfer_id := 3, status := some .unimplemented }] ∧
     (serverReadChunk
        { handlerId := 3,
          handler := { source := [1, 2, 3, 4], prepareOk := true,
                       seekOk := false, seekStatus := .unimplemented,
                       prepareCalls := 1, finalizeCalls := [] },
          maxChunkSize := 64, state := .data, offset := 16 }
        { transfer_id := 3, pending_bytes := some 8, offset := 2 }).1.handler.finalizeCalls
       = [] ++ [.unimplemented] ∧
     (serverReadChunk
        { handlerId := 3,
          handler := { source := [1, 2, 3, 4], prepareOk := true,
                       seekOk := false, seekStatus := .unimplemented,
                       prepareCalls := 1, finalizeCalls := [] },
          maxChunkSize := 64, state := .data, offset := 16 }
        { transfer_id := 3, pending_bytes := some 8, offset := 2 }).1.state
       = .completed) :=
  ⟨rfl,
   seek_unsupported_ends_session
     { id := 6, source := [1, 2, 3, 4], seekable := false, pos := 0,
       state := .sentId, completion := none }
     { transfer_id := 6, pending_bytes := some 64,
       max_chunk_size_bytes := some 32, offset := 16 }
     { handlerId := 3,
       handler := { source := [1, 2, 3, 4], prepareOk := true, seekOk := false,
                    seekStatus := .unimplemented, prepareCalls := 1,
                    finalizeCalls := [] },
       maxChunkSize := 64, state := .data, offset := 16 }
     { transfer_id := 3, pending_bytes := some 8, offset := 2 }
     64 8 (by decide) rfl rfl (by decide) (by decide) rfl rfl rfl rfl
     (by decide) rfl (by decide) rfl⟩

/-- C7: a parameters chunk granting a zero window terminates the session
with INTERNAL. Client WRITE side: `pending_bytes = 0` makes the client
send a terminal INTERNAL chunk and complete with INTERNAL. Server READ
side: an initial chunk with `pending_bytes = 0` is answered with a
terminal INTERNAL chunk and `FinalizeRead(INTERNAL)` is called. -/
theorem zero_window_terminates_internal
    (s : ClientWriteCtx) (c : Chunk) (t : ServerReadCtx) (d : Chunk)
    (hs : s.state ≠ .completed) (hc : c.status = none)
    (hp : c.pending_bytes = some 0)
    (ht : t.state = .idle) (hid : d.transfer_id = t.handlerId)
    (hd0 : d.offset = 0) (hdd : d.data = []) (hdst : d.status = none)
    (hdp : d.pending_bytes = some 0) (hpo : t.handler.prepareOk = true) :
    clientWriteChunk s c =
      ({ s with state := .completed, completion := some .internal },
       [{ transfer_id := s.id, status := some .internal }]) ∧
    (serverReadChunk t d).2 =
      [{ transfer_id := t.handlerId, status := some .internal }] ∧
    (serverReadChunk t d).1.handler.finalizeCalls
      = t.handler.finalizeCalls ++ [.internal] ∧
    (serverReadChunk t d).1.state = .completed := by
  have hinit : isInitialRead d = true := by
    simp [isInitialRead, hd0, hdd, hdst, hdp]
  refine ⟨?_, ?_, ?_, ?_⟩ <;>
    simp [clientWriteChunk, serverReadChunk, serverReadStart, hs, hc, hp,
          ht, hid, hinit, hdp, hpo]

/-- Witness for `zero_window_terminates_internal`: a zero-byte grant on a
client WRITE session and a zero-window initial chunk on a server READ
session. -/
theorem zero_window_terminates_internal_witness :
    (({ transfer_id := 9, pending_bytes := some 0,
        max_chunk_size_bytes := some 32 } : Chunk).pending_bytes = some 0) ∧
    (clientWriteChunk
        { id := 9, source := [1, 2, 3, 4], seekable := true, pos := 0,
          state := .sentId, completion := none }
        { transfer_id := 9, pending_bytes := some 0,
          max_chunk_size_bytes := some 32 } =
      ({ id := 9, source := [1, 2, 3, 4], seekable := true, pos := 0,
         state := .completed, completion := some .internal },
       [{ transfer_id := 9, status := some .internal }]) ∧
     (serverReadChunk
        { handlerId := 3,
          handler := { source := [1, 2, 3, 4], prepareOk := true,
                       seekOk := true, seekStatus := .ok, prepareCalls := 0,
                       finalizeCalls := [] },
          maxChunkSize := 64, state := .idle, offset := 0 }
        { transfer_id := 3, pending_bytes := some 0 }).2 =
       [{ transfer_id := 3, status := some .internal }] ∧
     (serverReadChunk
        { handlerId := 3,
          handler := { source := [1, 2, 3, 4], prepareOk := true,
                       seekOk := true, seekStatus := .ok, prepareCalls := 0,
                       finalizeCalls := [] },
          maxChunkSize := 64, state := .idle, offset := 0 }
        { transfer_id := 3, pending_bytes := some 0 }).1.handler.finalizeCalls
       = [] ++ [.internal] ∧
     (serverReadChunk
        { handlerId := 3,
          handler := { source := [1, 2, 3, 4], prepareOk := true,
                       seekOk := true, seekStatus := .ok, prepareCalls := 0,
                       finalizeCalls := [] },
          maxChunkSize := 64, state := .idle, offset := 0 }
        { transfer_id := 3, pending_bytes := some 0 }).1.state = .completed) :=
  ⟨rfl,
   zero_window_terminates_internal
     { id := 9, source := [1, 2, 3, 4], seekable := true, pos := 0,
       state := .sentId, completion := none }
     { transfer_id := 9, pending_bytes := some 0,
       max_chunk_size_bytes := some 32 }
     { handlerId := 3,
       handler := { source := [1, 2, 3, 4], prepareOk := true, seekOk := true,
                    seekStatus := .ok, prepareCalls := 0, finalizeCalls := [] },
       maxChunkSize := 64, state := .idle, offset := 0 }
     { transfer_id := 3, pending_bytes := some 0 }
     (by decide) rfl rfl rfl rfl rfl rfl rfl rfl rfl⟩

/-- C8: when a unary response plus packet framing does not fit in the
channel's output buffer, the server emits a single SERVER_ERROR packet
with status INTERNAL carrying the request's service and method ids, emits
no RESPONSE packet, and the user handler has observed the decoded
request. -/
theorem unary_response_too_large_sends_internal
    (bufferSize framing : Nat) (handler : List Nat → List Nat × TStatus)
    (req : RpcPacket)
    (h : bufferSize < (handler req.payload).1.length + framing) :
    (invokeUnary bufferSize framing handler req).sent =
      [{ kind := .serverError, channelId := req.channelId,
         serviceId := req.serviceId, methodId := req.methodId,
         payload := [], pstatus := .internal }] ∧
    (∀ p ∈ (invokeUnary bufferSize framing handler req).sent,
      p.kind ≠ .response) ∧
    (invokeUnary bufferSize framing handler req).observed = req.payload := by
  refine ⟨?_, ?_, ?_⟩ <;> simp [invokeUnary, h]

/-- Witness for `unary_response_too_large_sends_internal`: a 22-byte output
buffer and a handler whose response needs 15 payload bytes plus 14 bytes
of framing. -/
theorem unary_response_too_large_sends_internal_witness :
    (22 < (List.replicate 15 1).length + 14) ∧
    ((invokeUnary 22 14 (fun r => (List.replicate 15 1, .ok))
        { kind := .request, channelId := 1, serviceId := 42, methodId := 100,
          payload := [8, 123], pstatus := .ok }).sent =
      [{ kind := .serverError, channelId := 1, serviceId := 42,
         methodId := 100, payload := [], pstatus := .internal }] ∧
     (∀ p ∈ (invokeUnary 22 14 (fun r => (List.replicate 15 1, .ok))
        { kind := .request, channelId := 1, serviceId := 42, methodId := 100,
          payload := [8, 123], pstatus := .ok }).sent, p.kind ≠ .response) ∧
     (invokeUnary 22 14 (fun r => (List.replicate 15 1, .ok))
        { kind := .request, channelId := 1, serviceId := 42, methodId := 100,
          payload := [8, 123], pstatus := .ok }).observed = [8, 123]) :=
  ⟨by decide,
   unary_response_too_large_sends_internal 22 14
     (fun r => (List.replicate 15 1, .ok))
     { kind := .request, channelId := 1, serviceId := 42, methodId := 100,
       payload := [8, 123], pstatus := .ok }
     (by decide)⟩

/-- C9: `Write` on a finished streaming handle returns FAILED_PRECONDITION
and emits no packet; `Write` and `Finish` on a moved-from handle return
FAILED_PRECONDITION and emit no packet; the moved-to handle takes over:
its `Write` succeeds and emits a packet. -/
theorem stream_write_closed_or_moved_failed_precondition
    (w : ServerWriterH) (payload : List Nat) (st : TStatus)
    (h : w.active = true) :
    ((w.finish st).1.write payload) = ((w.finish st).1, [], .failedPrecondition) ∧
    (w.move.1.write payload) = (w.move.1, [], .failedPrecondition) ∧
    (w.move.1.finish st) = (w.move.1, [], .failedPrecondition) ∧
    (w.move.2.write payload).2.2 = .ok ∧
    (w.move.2.write payload).2.1 =
      [{ kind := .serverStream, channelId := w.channelId,
         serviceId := w.serviceId, methodId := w.methodId,
         payload := payload, pstatus := .ok }] := by
  refine ⟨?_, ?_, ?_, ?_, ?_⟩ <;>
    simp [ServerWriterH.write, ServerWriterH.finish, ServerWriterH.move, h]

/-- Witness for `stream_write_closed_or_moved_failed_precondition` on a
concrete active writer handle. -/
theorem stream_write_closed_or_moved_failed_precondition_witness :
    (({ active := true, channelId := 1, serviceId := 42,
        methodId := 100 } : ServerWriterH).active = true) ∧
    ((({ active := true, channelId := 1, serviceId := 42,
         methodId := 100 } : ServerWriterH).finish .ok).1.write [5] =
      ((({ active := true, channelId := 1, serviceId := 42,
           methodId := 100 } : ServerWriterH).finish .ok).1, [],
       .failedPrecondition) ∧
     (({ active := true, channelId := 1, serviceId := 42,
         methodId := 100 } : ServerWriterH).move.1.write [5] =
      (({ active := true, channelId := 1, serviceId := 42,
          methodId := 100 } : ServerWriterH).move.1, [],
       .failedPrecondition)) ∧
     (({ active := true, channelId := 1, serviceId := 42,
         methodId := 100 } : ServerWriterH).move.1.finish .ok =
      (({ active := true, channelId := 1, serviceId := 42,
          methodId := 100 } : ServerWriterH).move.1, [],
       .failedPrecondition)) ∧
     (({ active := true, channelId := 1, serviceId := 42,
         methodId := 100 } : ServerWriterH).move.2.write [5]).2.2 = .ok ∧
     (({ active := true, channelId := 1, serviceId := 42,
         methodId := 100 } : ServerWriterH).move.2.write [5]).2.1 =
       [{ kind := .serverStream, channelId := 1, serviceId := 42,
          methodId := 100, payload := [5], pstatus := .ok }]) :=
  ⟨rfl,
   stream_write_closed_or_moved_failed_precondition
     { active := true, channelId := 1, serviceId := 42, methodId := 100 }
     [5] .ok rfl⟩

/-- C10: an initial chunk whose transfer id has no registered handler is
answered with a terminal NOT_FOUND chunk for that transfer id, and the
session state — including every handler call log — is untouched, on both
the READ and the WRITE service. -/
theorem unregistered_handler_not_found
    (t : ServerReadCtx) (u : ServerWriteCtx) (c d : Chunk)
    (hc : c.transfer_id ≠ t.handlerId) (hci : isInitialRead c = true)
    (hd : d.transfer_id ≠ u.handlerId) (hdi : isInitialWrite d = true) :
    serverReadChunk t c =
      (t, [{ transfer_id := c.transfer_id, status := some .notFound }]) ∧
    serverWriteChunk u d =
      (u, [{ transfer_id := d.transfer_id, status := some .notFound }]) := by
  constructor <;> simp [serverReadChunk, serverWriteChunk, hc, hci, hd, hdi]

/-- Witness for `unregistered_handler_not_found`: initial chunks for
transfer ids 11 and 999 against services whose only handlers are ids 3
and 7. -/
theorem unregistered_handler_not_found_witness :
    (11 ≠ (mkServerRead 3 [1, 2, 3, 4] 64).handlerId) ∧
    (serverReadChunk (mkServerRead 3 [1, 2, 3, 4] 64)
        { transfer_id := 11, pending_bytes := some 32, offset := 0 } =
      (mkServerRead 3 [1, 2, 3, 4] 64,
       [{ transfer_id := 11, status := some .notFound }]) ∧
     serverWriteChunk
        { handlerId := 7,
          handler := { capacity := 32, written := [], finalizeRet := .ok,
                       prepareCalls := 0, finalizeCalls := [] },
          maxBytesToReceive := 64, maxChunkSize := 37, state := .idle,
          offset := 0, windowEnd := 0, lastChunkOffset := 0, recovery := false,
          finalStatus := none }
        { transfer_id := 999 } =
      ({ handlerId := 7,
         handler := { capacity := 32, written := [], finalizeRet := .ok,
                      prepareCalls := 0, finalizeCalls := [] },
         maxBytesToReceive := 64, maxChunkSize := 37, state := .idle,
         offset := 0, windowEnd := 0, lastChunkOffset := 0, recovery := false,
         finalStatus := none },
       [{ transfer_id := 999, status := some .notFound }])) :=
  ⟨by decide,
   unregistered_handler_not_found (mkServerRead 3 [1, 2, 3, 4] 64)
     { handlerId := 7,
       handler := { capacity := 32, written := [], finalizeRet := .ok,
                    prepareCalls := 0, finalizeCalls := [] },
       maxBytesToReceive := 64, maxChunkSize := 37, state := .idle,
       offset := 0, windowEnd := 0, lastChunkOffset := 0, recovery := false,
       finalStatus := none }
     { transfer_id := 11, pending_bytes := some 32, offset := 0 }
     { transfer_id := 999 }
     (by decide) (by decide) (by decide) (by decide)⟩

/-- A sender burst with zero budget emits nothing and stays in place. -/
theorem dataChunksF_budget_zero (id : Nat) (src : List Nat) (size : Nat) :
    ∀ n pos, dataChunksF id src size n pos 0 = ([], pos) := by
  intro n pos
  cases n <;> simp [dataChunksF]

/-- Consuming one sender burst: a receiving client session whose window
matches the sender's budget either completes OK with the full source in
its writer (when the source ends inside the window) or advances to the end
of the window and emits exactly one fresh parameters chunk. -/
theorem burst_consume (id W : Nat) (src : List Nat) (size : Nat)
    (hsize : 0 < size) :
    ∀ n budget pos L compl, budget < n → 0 < budget → pos ≤ src.length →
    (src.length < pos + budget →
      ∃ L', clientReadRun
          { id := id, window := W, state := .receiving, offset := pos,
            windowEnd := pos + budget, lastChunkOffset := L,
            writer := src.take pos, received := pos, completion := compl }
          (dataChunksF id src size n pos budget).1
        = ({ id := id, window := W, state := .completed,
             offset := src.length, windowEnd := pos + budget,
             lastChunkOffset := L', writer := src,
             received := src.length, completion := some .ok },
           [{ transfer_id := id, status := some .ok }])) ∧
    (pos + budget ≤ src.length →
      ∃ L', clientReadRun
          { id := id, window := W, state := .receiving, offset := pos,
            windowEnd := pos + budget, lastChunkOffset := L,
            writer := src.take pos, received := pos, completion := compl }
          (dataChunksF id src size n pos budget).1
        = ({ id := id, window := W, state := .receiving,
             offset := pos + budget, windowEnd := pos + budget + W,
             lastChunkOffset := L', writer := src.take (pos + budget),
             received := pos + budget, completion := compl },
           [{ transfer_id := id, offset := pos + budget,
              pending_bytes := some W }])) := by
  intro n
  induction n with
  | zero => intro budget pos L compl h; omega
  | succ n ih =>
    intro budget pos L compl hbn hb hpos
    simp only [dataChunksF]
    by_cases hpe : ((src.drop pos).take (min size budget)).isEmpty
    · -- source exhausted at pos: the burst is the single remaining=0 chunk
      have hlen : src.length = pos := by
        have h1 := List.isEmpty_iff.mp hpe
        have h2 : min (min size budget) (src.length - pos) = 0 := by
          have := congrArg List.length h1
          simpa [List.length_take, List.length_drop] using this
        omega
      constructor
      · intro hlt
        refine ⟨pos, ?_⟩
        have hb0 : ¬ budget = 0 := by omega
        simp [hpe, hb0, clientReadRun, clientReadChunk, clientReadAccept,
              hlen, List.take_length]
      · intro hle
        omega
    · -- a nonempty data chunk is emitted and accepted
      set piece := (src.drop pos).take (min size budget) with hpiece
      have hm0 : 0 < piece.length := by
        rcases h : piece with _ | ⟨a, l⟩
        · rw [h] at hpe; simp at hpe
        · simp
      have hmlen : piece.length = min (min size budget) (src.length - pos) := by
        simp [hpiece, List.length_take, List.length_drop]
      have hmb : piece.length ≤ budget := by omega
      have hmp : pos + piece.length ≤ src.length := by omega
      have htake : src.take pos ++ piece = src.take (pos + piece.length) := by
        rw [List.take_add]
        congr 1
        rw [hpiece, List.length_take]
        rcases le_total (min size budget) (src.drop pos).length with h | h
        · rw [min_eq_left h]
        · rw [min_eq_right h, List.take_length, List.take_of_length_le h]
      simp only [hpe, Bool.false_eq_true, not_false_iff, if_false]
      by_cases hmeq : piece.length = budget
      · -- window exhausted exactly: the client re-grants a fresh window
        have hble : budget ≤ src.length - pos := by omega
        constructor
        · intro hlt; omega
        · intro hle
          refine ⟨pos, ?_⟩
          have hnb : ¬ (pos + budget - pos < piece.length) := by omega
          rw [hmeq, Nat.sub_self]
          simp [dataChunksF_budget_zero, clientReadRun, clientReadChunk,
                clientReadAccept, readParamsChunk, htake, hnb, hmeq,
                Nat.add_sub_cancel_left]
      · -- window not exhausted: recurse on the rest of the burst
        have hmlt : piece.length < budget := lt_of_le_of_ne hmb hmeq
        have harith : pos + budget
            = pos + piece.length + (budget - piece.length) := by omega
        have hb' : 0 < budget - piece.length := by omega
        have hbn' : budget - piece.length < n := by omega
        obtain ⟨ihA, ihB⟩ :=
          ih (budget - piece.length) (pos + piece.length) pos compl hbn' hb' hmp
        have hnb : ¬ (pos + budget - pos < piece.length) := by omega
        have hnb2 : ¬ (budget < piece.length) := by omega
        have hnw : ¬ (pos + piece.length = pos + budget) := by omega
        have hnw2 : ¬ (piece.length = budget) := hmeq
        constructor
        · intro hlt
          obtain ⟨L', hrun⟩ := ihA (by omega)
          refine ⟨L', ?_⟩
          simp [clientReadRun, clientReadChunk, clientReadAccept,
                hnb, hnb2, hnw, hnw2, htake]
          rw [harith]
          rw [hrun]
        · intro hle
          obtain ⟨L', hrun⟩ := ihB (by omega)
          refine ⟨L', ?_⟩
          simp [clientReadRun, clientReadChunk, clientReadAccept,
                hnb, hnb2, hnw, hnw2, htake]
          rw [harith]
          rw [hrun]



/-- The source position after a sender burst: the window is filled, or the
source is exhausted. -/
theorem dataChunksF_pos_eq (id : Nat) (src : List Nat) (size : Nat)
    (hsize : 0 < size) :
    ∀ n budget pos, budget < n → pos ≤ src.length →
      (dataChunksF id src size n pos budget).2 = min (pos + budget) src.length := by
  intro n
  induction n with
  | zero => intro budget pos h; omega
  | succ n ih =>
    intro budget pos hbn hpos
    simp only [dataChunksF]
    by_cases hpe : ((src.drop pos).take (min size budget)).isEmpty
    · by_cases hb0 : budget = 0
      · subst hb0
        simp [hpe]
        omega
      · have hlen : src.length = pos := by
          have h1 := List.isEmpty_iff.mp hpe
          have h2 : min (min size budget) (src.length - pos) = 0 := by
            have := congrArg List.length h1
            simpa [List.length_take, List.length_drop] using this
          omega
        simp [hpe, hb0]
        omega
    · have hm : 0 < ((src.drop pos).take (min size budget)).length := by
        rcases h : ((src.drop pos).take (min size budget)) with _ | ⟨a, l⟩
        · rw [h] at hpe; simp at hpe
        · simp
      have hmlen : ((src.drop pos).take (min size budget)).length
          = min (min size budget) (src.length - pos) := by
        simp [List.length_take, List.length_drop]
      simp only [hpe, Bool.false_eq_true, not_false_iff, if_false]
      rw [ih]
      · omega
      · omega
      · omega

/-- The lossless READ interaction, entered with the client and server in
matching mid-transfer positions, runs to completion: the client completes
OK holding the full source and the server finalizes with OK. -/
theorem readLoop_completes (id W mcs : Nat) (src : List Nat)
    (hW : 0 < W) (hm : 0 < mcs) (po so : Bool) (ss : TStatus) :
    ∀ fuel pos L compl pc fc,
      0 < pos → pos ≤ src.length → src.length - pos < fuel →
      ((readTransferLoop fuel
          { handlerId := id,
            handler := { source := src, prepareOk := po, seekOk := so,
                         seekStatus := ss, prepareCalls := pc,
                         finalizeCalls := fc },
            maxChunkSize := mcs, state := .data, offset := pos }
          { id := id, window := W, state := .receiving, offset := pos,
            windowEnd := pos + W, lastChunkOffset := L,
            writer := src.take pos, received := pos, completion := compl }
          { transfer_id := id, offset := pos, pending_bytes := some W }).1.completion
        = some .ok) ∧
      ((readTransferLoop fuel
          { handlerId := id,
            handler := { source := src, prepareOk := po, seekOk := so,
                         seekStatus := ss, prepareCalls := pc,
                         finalizeCalls := fc },
            maxChunkSize := mcs, state := .data, offset := pos }
          { id := id, window := W, state := .receiving, offset := pos,
            windowEnd := pos + W, lastChunkOffset := L,
            writer := src.take pos, received := pos, completion := compl }
          { transfer_id := id, offset := pos, pending_bytes := some W }).1.writer
        = src) ∧
      ((readTransferLoop fuel
          { handlerId := id,
            handler := { source := src, prepareOk := po, seekOk := so,
                         seekStatus := ss, prepareCalls := pc,
                         finalizeCalls := fc },
            maxChunkSize := mcs, state := .data, offset := pos }
          { id := id, window := W, state := .receiving, offset := pos,
            windowEnd := pos + W, lastChunkOffset := L,
            writer := src.take pos, received := pos, completion := compl }
          { transfer_id := id, offset := pos, pending_bytes := some W }).1.received
        = src.length) ∧
      ((readTransferLoop fuel
          { handlerId := id,
            handler := { source := src, prepareOk := po, seekOk := so,
                         seekStatus := ss, prepareCalls := pc,
                         finalizeCalls := fc },
            maxChunkSize := mcs, state := .data, offset := pos }
          { id := id, window := W, state := .receiving, offset := pos,
            windowEnd := pos + W, lastChunkOffset := L,
            writer := src.take pos, received := pos, completion := compl }
          { transfer_id := id, offset := pos, pending_bytes := some W }).2.handler.finalizeCalls
        = fc ++ [.ok]) ∧
      ((readTransferLoop fuel
          { handlerId := id,
            handler := { source := src, prepareOk := po, seekOk := so,
                         seekStatus := ss, prepareCalls := pc,
                         finalizeCalls := fc },
            maxChunkSize := mcs, state := .data, offset := pos }
          { id := id, window := W, state := .receiving, offset := pos,
            windowEnd := pos + W, lastChunkOffset := L,
            writer := src.take pos, received := pos, completion := compl }
          { transfer_id := id, offset := pos, pending_bytes := some W }).2.handler.prepareCalls
        = pc) := by
  intro fuel
  induction fuel with
  | zero => intro pos L compl pc fc h1 h2 h3; omega
  | succ fuel ih =>
    intro pos L compl pc fc hpos0 hposle hfuel
    have hpz : ¬ (pos = 0) := by omega
    have hrcs : min mcs mcs = mcs := min_self mcs
    obtain ⟨bA, bB⟩ := burst_consume id W src mcs hm (W + 1) W pos L compl
      (by omega) hW hposle
    by_cases hcase : src.length < pos + W
    · obtain ⟨L2, hrun⟩ := bA hcase
      simp only [readTransferLoop, serverReadChunk, isInitialRead,
                 readChunkSize, dataChunks, Chunk.isTerminal]
      simp [hpz, hrun]
    · push_neg at hcase
      obtain ⟨L2, hrun⟩ := bB hcase
      have hposW : (dataChunksF id src mcs (W + 1) pos W).2 = pos + W := by
        rw [dataChunksF_pos_eq id src mcs hm (W + 1) W pos (by omega) hposle]
        omega
      simp only [readTransferLoop, serverReadChunk, isInitialRead,
                 readChunkSize, dataChunks, Chunk.isTerminal]
      simp [hpz, hrun, hposW]
      exact ih (pos + W) L2 compl pc fc (by omega) (by omega) (by omega)



/-- One-round unfolding of the READ interaction loop. -/
theorem readTransferLoop_succ (fuel : Nat) (srv : ServerReadCtx)
    (cli : ClientReadCtx) (p : Chunk) :
    readTransferLoop (fuel + 1) srv cli p =
      (let r1 := serverReadChunk srv p
       let r2 := clientReadRun cli r1.2
       match r2.2 with
       | [] => (r2.1, r1.1)
       | out :: _ =>
         if out.isTerminal then (r2.1, (serverReadChunk r1.1 out).1)
         else readTransferLoop fuel r1.1 r2.1 out) := rfl

/-- C1: a READ transfer over a lossless channel runs to completion with
status OK, and the bytes delivered to the receiver's writer are exactly
the sender's source bytes: the sum of the data lengths of the received
data chunks (`received`) equals the number of bytes written to the writer
and equals the source size, the writer's content equals the source, and
the server handler finalizes with OK. -/
theorem read_transfer_ok_delivers_source (id : Nat) (src : List Nat)
    (W mcs : Nat) (hW : 0 < W) (hm : 0 < mcs) :
    (readTransfer id src W mcs).1.completion = some .ok ∧
    (readTransfer id src W mcs).1.writer = src ∧
    (readTransfer id src W mcs).1.received = src.length ∧
    (readTransfer id src W mcs).1.writer.length
      = (readTransfer id src W mcs).1.received ∧
    (readTransfer id src W mcs).2.handler.finalizeCalls = [.ok] := by
  obtain ⟨W', rfl⟩ : ∃ W'', W = W'' + 1 := ⟨W - 1, by omega⟩
  have hrcs : min mcs mcs = mcs := min_self mcs
  obtain ⟨bA, bB⟩ := burst_consume id (W' + 1) src mcs hm (W' + 1 + 1)
    (W' + 1) 0 0 none (by omega) (by omega) (by omega)
  simp only [Nat.zero_add, List.take_zero] at bA bB
  have hposW : (dataChunksF id src mcs (W' + 1 + 1) 0 (W' + 1)).2
      = min (W' + 1) src.length := by
    rw [dataChunksF_pos_eq id src mcs hm (W' + 1 + 1) (W' + 1) 0 (by omega)
        (by omega)]
    simp
  have hsrv0 : serverReadChunk (mkServerRead id src mcs)
      { transfer_id := id, offset := 0, pending_bytes := some (W' + 1) } =
      ({ handlerId := id,
         handler := { source := src, prepareOk := true, seekOk := true,
                      seekStatus := .ok, prepareCalls := 1, finalizeCalls := [] },
         maxChunkSize := mcs, state := .data,
         offset := min (W' + 1) src.length },
       (dataChunksF id src mcs (W' + 1 + 1) 0 (W' + 1)).1) := by
    simp [serverReadChunk, mkServerRead, serverReadStart, isInitialRead,
          readChunkSize, dataChunks, hposW]
  have h2 : src.length + 2 = (src.length + 1) + 1 := rfl
  simp only [readTransfer, clientReadStart, h2, readTransferLoop_succ, hsrv0]
  by_cases hcase : src.length < W' + 1
  · obtain ⟨L2, hrun⟩ := bA hcase
    rw [hrun]
    simp [serverReadChunk, isInitialRead, Chunk.isTerminal]
  · push_neg at hcase
    obtain ⟨L2, hrun⟩ := bB hcase
    rw [hrun]
    have hmin : min (W' + 1) src.length = W' + 1 := by omega
    simp only [Chunk.isTerminal, hmin]
    have hloop := readLoop_completes id (W' + 1) mcs src (by omega) hm true
      true .ok (src.length + 1) (W' + 1) L2 none 1 [] (by omega) (by omega)
      (by omega)
    obtain ⟨hA, hB, hC, hD, hE⟩ := hloop
    exact ⟨hA, hB, hC, (congrArg List.length hB).trans hC.symm,
           by simpa using hD⟩

/-- Witness for `read_transfer_ok_delivers_source`: transfer id 3, the
32-byte source `[0, 1, …, 31]`, window 64 (the spec's READ single-chunk
scenario). -/
theorem read_transfer_ok_delivers_source_witness :
    (0 < 64) ∧
    ((readTransfer 3 (List.range 32) 64 64).1.completion = some .ok ∧
     (readTransfer 3 (List.range 32) 64 64).1.writer = List.range 32 ∧
     (readTransfer 3 (List.range 32) 64 64).1.received
       = (List.range 32).length ∧
     (readTransfer 3 (List.range 32) 64 64).1.writer.length
       = (readTransfer 3 (List.range 32) 64 64).1.received ∧
     (readTransfer 3 (List.range 32) 64 64).2.handler.finalizeCalls = [.ok]) :=
  ⟨by decide,
   read_transfer_ok_delivers_source 3 (List.range 32) 64 64 (by decide)
     (by decide)⟩

/-- READ chunk processing emits the same chunks and reaches the same
state, up to the handler call log, from two session states that agree up
to the call log. -/
theorem serverReadChunk_log_independent
    (a b : ServerReadCtx) (c : Chunk)
    (h : setLogs a 0 [] = setLogs b 0 []) :
    (serverReadChunk a c).2 = (serverReadChunk b c).2 ∧
    setLogs (serverReadChunk a c).1 0 [] = setLogs (serverReadChunk b c).1 0 [] := by
  rcases a with ⟨ida, ⟨srca, poa, soa, ssa, pca, fca⟩, mcsa, sta, offa⟩
  rcases b with ⟨idb, ⟨srcb, pob, sob, ssb, pcb, fcb⟩, mcsb, stb, offb⟩
  simp only [setLogs, ServerReadCtx.mk.injEq, ReadHandlerH.mk.injEq] at h
  obtain ⟨q1, ⟨q2, q3, q4, q5, -, -⟩, q6, q7, q8⟩ := h
  subst q1 q2 q3 q4 q5 q6 q7 q8
  simp only [serverReadChunk, serverReadStart, readChunkSize, setLogs]
  split
  · split <;> simp
  · (repeat' split) <;> simp_all

/-- The entire emitted chunk sequence of a READ session is independent
of the handler call log. -/
theorem serverReadRun_log_independent :
    ∀ (cs : List Chunk) (a b : ServerReadCtx),
      setLogs a 0 [] = setLogs b 0 [] →
      (serverReadRun a cs).2 = (serverReadRun b cs).2 := by
  intro cs
  induction cs with
  | nil => intro a b h; simp [serverReadRun]
  | cons c cs ih =>
    intro a b h
    obtain ⟨hout, hst⟩ := serverReadChunk_log_independent a b c h
    simp only [serverReadRun]
    rw [hout, ih _ _ hst]

/-- Starting a READ session emits the same chunks and reaches the same
state, up to the handler call log, from two contexts that agree as fresh
sessions. -/
theorem serverReadStart_log_independent (a b : ServerReadCtx) (c : Chunk)
    (h : resetReadSession a = resetReadSession b) :
    (serverReadStart a c).2 = (serverReadStart b c).2 ∧
    setLogs (serverReadStart a c).1 0 [] = setLogs (serverReadStart b c).1 0 [] := by
  rcases a with ⟨ida, ⟨srca, poa, soa, ssa, pca, fca⟩, mcsa, sta, offa⟩
  rcases b with ⟨idb, ⟨srcb, pob, sob, ssb, pcb, fcb⟩, mcsb, stb, offb⟩
  simp only [resetReadSession, setLogs, ServerReadCtx.mk.injEq,
             ReadHandlerH.mk.injEq] at h
  obtain ⟨q1, ⟨q2, q3, q4, q5, -, -⟩, q6, -, -⟩ := h
  subst q1 q2 q3 q4 q5 q6
  simp only [serverReadStart, readChunkSize, setLogs]
  split
  · simp
  · split <;> simp_all

set_option maxHeartbeats 2000000 in
/-- WRITE chunk processing emits the same chunks and reaches the same
state, up to the handler call log and the written bytes, from two session
states that agree up to those fields. -/
theorem serverWriteChunk_log_independent
    (a b : ServerWriteCtx) (c : Chunk)
    (h : setLogsW a 0 [] [] = setLogsW b 0 [] []) :
    (serverWriteChunk a c).2 = (serverWriteChunk b c).2 ∧
    setLogsW (serverWriteChunk a c).1 0 [] []
      = setLogsW (serverWriteChunk b c).1 0 [] [] := by
  rcases a with ⟨ida, ⟨capa, wra, fra, pca, fca⟩, mba, mcsa, sta, offa, wea, la, ra, fsa⟩
  rcases b with ⟨idb, ⟨capb, wrb, frb, pcb, fcb⟩, mbb, mcsb, stb, offb, web, lb, rb, fsb⟩
  simp only [setLogsW, ServerWriteCtx.mk.injEq, WriteHandlerH.mk.injEq] at h
  obtain ⟨q1, ⟨q2, -, q3, -, -⟩, q4, q5, q6, q7, q8, q9, q10, q11⟩ := h
  subst q1 q2 q3 q4 q5 q6 q7 q8 q9 q10 q11
  simp only [serverWriteChunk, serverWriteStart, serverWriteAccept,
             serverWriteFinish, serverWriteParamsChunk, serverWriteGrant,
             setLogsW]
  split
  · split <;> simp
  · (repeat' split) <;> simp_all

/-- The entire emitted chunk sequence of a WRITE session is independent
of the handler call log and the written bytes. -/
theorem serverWriteRun_log_independent :
    ∀ (cs : List Chunk) (a b : ServerWriteCtx),
      setLogsW a 0 [] [] = setLogsW b 0 [] [] →
      (serverWriteRun a cs).2 = (serverWriteRun b cs).2 := by
  intro cs
  induction cs with
  | nil => intro a b h; simp [serverWriteRun]
  | cons c cs ih =>
    intro a b h
    obtain ⟨hout, hst⟩ := serverWriteChunk_log_independent a b c h
    simp only [serverWriteRun]
    rw [hout, ih _ _ hst]

/-- Starting a WRITE session emits the same chunks and reaches the same
state, up to the handler call log and written bytes, from two contexts
that agree as fresh sessions. -/
theorem serverWriteStart_log_independent (a b : ServerWriteCtx)
    (h : resetWriteSession a = resetWriteSession b) :
    (serverWriteStart a).2 = (serverWriteStart b).2 ∧
    setLogsW (serverWriteStart a).1 0 [] []
      = setLogsW (serverWriteStart b).1 0 [] [] := by
  rcases a with ⟨ida, ⟨capa, wra, fra, pca, fca⟩, mba, mcsa, sta, offa, wea, la, ra, fsa⟩
  rcases b with ⟨idb, ⟨capb, wrb, frb, pcb, fcb⟩, mbb, mcsb, stb, offb, web, lb, rb, fsb⟩
  simp only [resetWriteSession, setLogsW, ServerWriteCtx.mk.injEq,
             WriteHandlerH.mk.injEq] at h
  obtain ⟨q1, ⟨q2, -, q3, -, -⟩, q4, q5, -, -, -, -, -, -⟩ := h
  subst q1 q2 q3 q4 q5
  simp [serverWriteStart, serverWriteParamsChunk, setLogsW]



/-- Starting a READ session calls `PrepareRead` exactly once. -/
theorem serverReadStart_prepareCalls (s : ServerReadCtx) (c : Chunk) :
    (serverReadStart s c).1.handler.prepareCalls
      = s.handler.prepareCalls + 1 := by
  simp only [serverReadStart]
  split
  · simp
  · split <;> simp

/-- Starting a READ session only ever appends to the finalize log. -/
theorem serverReadStart_finalizeCalls (s : ServerReadCtx) (c : Chunk) :
    ∃ tl, (serverReadStart s c).1.handler.finalizeCalls
      = s.handler.finalizeCalls ++ tl := by
  simp only [serverReadStart]
  split
  · exact ⟨[], by simp⟩
  · split
    · exact ⟨[], by simp⟩
    · exact ⟨[.internal], by simp⟩
    · exact ⟨[], by simp⟩

/-- Starting a WRITE session calls `PrepareWrite` exactly once. -/
theorem serverWriteStart_prepareCalls (s : ServerWriteCtx) :
    (serverWriteStart s).1.handler.prepareCalls
      = s.handler.prepareCalls + 1 := by
  simp [serverWriteStart]

/-- Starting a WRITE session does not call `FinalizeWrite`. -/
theorem serverWriteStart_finalizeCalls (s : ServerWriteCtx) :
    (serverWriteStart s).1.handler.finalizeCalls
      = s.handler.finalizeCalls := by
  simp [serverWriteStart]

/-- C3: a fresh initial chunk arriving while a server-side session is in
progress finalizes the old session with ABORTED (the abort is appended to
the finalize log before anything the new session adds), calls Prepare
again, and the restarted session emits exactly the chunks, now and on
every subsequent chunk sequence, that a session started on an idle
service would emit, on both the READ and the WRITE side. -/
theorem restart_aborts_and_matches_fresh_start
    (t : ServerReadCtx) (u : ServerWriteCtx) (c d : Chunk)
    (ht : t.state = .data) (hc : c.transfer_id = t.handlerId)
    (hci : isInitialRead c = true)
    (hu : u.state = .data) (hd : d.transfer_id = u.handlerId)
    (hdi : isInitialWrite d = true) :
    (serverReadChunk t c).2 = (serverReadChunk (resetReadSession t) c).2 ∧
    (∀ cs, (serverReadRun (serverReadChunk t c).1 cs).2
      = (serverReadRun (serverReadChunk (resetReadSession t) c).1 cs).2) ∧
    (serverReadChunk t c).1.handler.prepareCalls
      = t.handler.prepareCalls + 1 ∧
    (∃ tl, (serverReadChunk t c).1.handler.finalizeCalls
      = t.handler.finalizeCalls ++ .aborted :: tl) ∧
    (serverWriteChunk u d).2 = (serverWriteChunk (resetWriteSession u) d).2 ∧
    (∀ ds, (serverWriteRun (serverWriteChunk u d).1 ds).2
      = (serverWriteRun (serverWriteChunk (resetWriteSession u) d).1 ds).2) ∧
    (serverWriteChunk u d).1.handler.prepareCalls
      = u.handler.prepareCalls + 1 ∧
    (serverWriteChunk u d).1.handler.finalizeCalls
      = u.handler.finalizeCalls ++ [.aborted] := by
  have hstep : serverReadChunk t c
      = serverReadStart
          { t with handler := { t.handler with
              finalizeCalls := t.handler.finalizeCalls ++ [.aborted] } } c := by
    simp [serverReadChunk, ht, hc, hci]
  have hfresh : serverReadChunk (resetReadSession t) c
      = serverReadStart (resetReadSession t) c := by
    simp [serverReadChunk, resetReadSession, setLogs, hc, hci]
  have hcong := serverReadStart_log_independent
      { t with handler := { t.handler with
          finalizeCalls := t.handler.finalizeCalls ++ [.aborted] } }
      (resetReadSession t) c (by simp [resetReadSession, setLogs])
  have hstepW : serverWriteChunk u d
      = serverWriteStart
          { u with handler := { u.handler with
              finalizeCalls := u.handler.finalizeCalls ++ [.aborted] } } := by
    simp [serverWriteChunk, hu, hd, hdi]
  have hfreshW : serverWriteChunk (resetWriteSession u) d
      = serverWriteStart (resetWriteSession u) := by
    simp [serverWriteChunk, resetWriteSession, setLogsW, hd, hdi]
  have hcongW := serverWriteStart_log_independent
      { u with handler := { u.handler with
          finalizeCalls := u.handler.finalizeCalls ++ [.aborted] } }
      (resetWriteSession u) (by simp [resetWriteSession, setLogsW])
  refine ⟨?_, ?_, ?_, ?_, ?_, ?_, ?_, ?_⟩
  · rw [hstep, hfresh]; exact hcong.1
  · intro cs
    rw [hstep, hfresh]
    exact serverReadRun_log_independent cs _ _ hcong.2
  · rw [hstep, serverReadStart_prepareCalls]
  · rw [hstep]
    obtain ⟨tl, htl⟩ := serverReadStart_finalizeCalls
      { t with handler := { t.handler with
          finalizeCalls := t.handler.finalizeCalls ++ [.aborted] } } c
    exact ⟨tl, by simp [htl]⟩
  · rw [hstepW, hfreshW]; exact hcongW.1
  · intro ds
    rw [hstepW, hfreshW]
    exact serverWriteRun_log_independent ds _ _ hcongW.2
  · rw [hstepW, serverWriteStart_prepareCalls]
  · rw [hstepW, serverWriteStart_finalizeCalls]



/-- Witness for `restart_aborts_and_matches_fresh_start`: concrete READ and
WRITE sessions in mid-transfer receiving their initial chunks again. -/
theorem restart_aborts_and_matches_fresh_start_witness :
    (sampleReadCtx.state = SrvState.data) ∧
    ((serverReadChunk sampleReadCtx sampleReadInitial).2
      = (serverReadChunk (resetReadSession sampleReadCtx) sampleReadInitial).2 ∧
     (∀ cs, (serverReadRun (serverReadChunk sampleReadCtx sampleReadInitial).1 cs).2
       = (serverReadRun
           (serverReadChunk (resetReadSession sampleReadCtx) sampleReadInitial).1 cs).2) ∧
     (serverReadChunk sampleReadCtx sampleReadInitial).1.handler.prepareCalls
       = sampleReadCtx.handler.prepareCalls + 1 ∧
     (∃ tl, (serverReadChunk sampleReadCtx sampleReadInitial).1.handler.finalizeCalls
       = sampleReadCtx.handler.finalizeCalls ++ TStatus.aborted :: tl) ∧
     (serverWriteChunk sampleWriteCtx sampleWriteInitial).2
      = (serverWriteChunk (resetWriteSession sampleWriteCtx) sampleWriteInitial).2 ∧
     (∀ ds, (serverWriteRun (serverWriteChunk sampleWriteCtx sampleWriteInitial).1 ds).2
       = (serverWriteRun
           (serverWriteChunk (resetWriteSession sampleWriteCtx) sampleWriteInitial).1 ds).2) ∧
     (serverWriteChunk sampleWriteCtx sampleWriteInitial).1.handler.prepareCalls
       = sampleWriteCtx.handler.prepareCalls + 1 ∧
     (serverWriteChunk sampleWriteCtx sampleWriteInitial).1.handler.finalizeCalls
       = sampleWriteCtx.handler.finalizeCalls ++ [.aborted]) :=
  ⟨rfl,
   restart_aborts_and_matches_fresh_start sampleReadCtx sampleWriteCtx
     sampleReadInitial sampleWriteInitial rfl rfl rfl rfl rfl rfl⟩

end Pigweed
